import Mathlib

set_option linter.unusedVariables false

/-!
# Verification of the Honey Shop backend pricing and persistence logic

Shallow embedding of `src/main.py` and `src/schemas.py` of the Honey Shop
API (FastAPI + document database).  Python floats are modelled as exact
rationals (`ℚ`); Python's `round(x, 2)` is modelled as rounding to the
nearest multiple of 1/100 (`round2`).  Python dicts are modelled as
association lists with unique keys (`Doc`), with element assignment and
`pop` mimicking dict semantics.  The database-access module (`database.py`,
absent from the repository snapshot: only its callers are present) is
modelled from the specification where needed.
-/

namespace HoneyShop

/-- Python `str.upper()`, mapping every character to upper case.  (Defined
via `List.map` over the character data so that concrete instances reduce;
semantically identical to `String.toUpper`.) -/
def strUpper (s : String) : String := ⟨s.data.map Char.toUpper⟩

/-- Python `round(x, 2)`: round to the nearest cent.  Modelled with
Mathlib's `round` (ties away from the floor); the spec asks for
"standard half-up-or-equivalent rounding to cents" and no claim depends
on tie behaviour. -/
def round2 (q : ℚ) : ℚ := ((round (q * 100) : ℤ) : ℚ) / 100

/-- `schemas.OrderItem`: a validated order line item.  The pydantic model
additionally constrains `price ≥ 0` and `quantity ≥ 1`; those validation
bounds are stated separately (`OrderItemValid`) since the pure pricing
functions are defined on arbitrary values. -/
structure OrderItem where
  product_id : String
  title : String
  price : ℚ
  quantity : ℤ
  deriving DecidableEq, Repr

/-- The pydantic field bounds on `schemas.OrderItem` (`ge=0` on price,
`ge=1` on quantity). -/
def OrderItemValid (i : OrderItem) : Prop := 0 ≤ i.price ∧ 1 ≤ i.quantity

/-- `schemas.Customer`.  `EmailStr` is modelled as a plain string (the
email format check plays no role in any claim). -/
structure Customer where
  full_name : String
  email : String
  phone : Option String := none
  address_line1 : String
  address_line2 : Option String := none
  city : String
  state : Option String := none
  postal_code : String
  country : String := "US"
  deriving DecidableEq, Repr

/-- `schemas.Order`: the order-creation request payload.  `subtotal`,
`shipping` and `total` are the client-supplied totals (recomputed
server-side by `create_order`). -/
structure Order where
  items : List OrderItem
  customer : Customer
  subtotal : ℚ
  shipping : ℚ
  total : ℚ
  status : String := "pending"
  deriving DecidableEq, Repr

/-- `main.calc_subtotal`:
`round(sum(max(0.0, i.price) * max(1, i.quantity) for i in items), 2)`. -/
def calc_subtotal (items : List OrderItem) : ℚ :=
  round2 ((items.map (fun i => max 0 i.price * ((max 1 i.quantity : ℤ) : ℚ))).sum)

/-- `main.calc_shipping`: $0 for US orders ≥ $50, else $5 flat; $12
international; nothing on an empty/zero order. -/
def calc_shipping (subtotal : ℚ) (destination : Option Customer) : ℚ :=
  let country := strUpper ((destination.map Customer.country).getD "US")
  if country ≠ "US" then
    if subtotal > 0 then 12 else 0
  else if subtotal ≥ 50 then 0
  else if subtotal > 0 then 5 else 0

/-- `main.STATE_TAX`: the fixed illustrative state-rate table, as an
association list. -/
def STATE_TAX : List (String × ℚ) :=
  [("CA", 0.0825), ("NY", 0.088), ("TX", 0.0625), ("FL", 0.06)]

/-- Python `dict.get(key, default)` on an association list. -/
def assocGetD (m : List (String × ℚ)) (k : String) (d : ℚ) : ℚ :=
  match m.find? (fun p => p.1 == k) with
  | some p => p.2
  | none => d

/-- `main.calc_tax`: tax on goods only; 0 outside the US; otherwise the
state rate from `STATE_TAX` (default 7%) applied to the subtotal.  The
`shipping` argument is accepted and ignored, as in the source. -/
def calc_tax (subtotal : ℚ) (shipping : ℚ) (destination : Option Customer) : ℚ :=
  let country := strUpper ((destination.map Customer.country).getD "US")
  if country ≠ "US" then 0
  else
    let state := strUpper ((destination.bind Customer.state).getD "")
    let rate := assocGetD STATE_TAX state 0.07
    round2 (subtotal * rate)

/-!
## Documents and dictionaries

Stored records are JSON-like documents.  A Python dict is modelled as an
association list with unique keys; `dictGet`, `dictSet` and `dictPop`
mimic `d[k]`-lookup, `d[k] = v`-assignment (replace in place, else append)
and `d.pop(k)`.
-/

/-- A JSON-like value as stored in a document: strings, numbers, booleans,
`None`, the database's native identifier (`oid`, modelled as a number),
arrays and nested objects. -/
inductive Val where
  | str : String → Val
  | num : ℚ → Val
  | bool : Bool → Val
  | null : Val
  | oid : Nat → Val
  | arr : List Val → Val
  | obj : List (String × Val) → Val

/-- A document / Python dict: an association list of fields (keys unique
by construction, as in a Python dict). -/
abbrev Doc : Type := List (String × Val)

/-- Python `str(v)`: the string form of a value (only its behaviour on
identifier values matters to any claim). -/
def Val.toStr : Val → String
  | .str s => s
  | .num q => toString q
  | .bool b => toString b
  | .null => "None"
  | .oid n => toString n
  | .arr _ => "<list>"
  | .obj _ => "<dict>"

/-- Python `k in d` / `d[k]` lookup (first — and on a dict, only —
occurrence of the key). -/
def dictGet (k : String) : Doc → Option Val
  | [] => none
  | (k', v) :: rest => if k' = k then some v else dictGet k rest

/-- Python `d[k] = v`: replace the value at an existing key in place,
otherwise append the new key at the end. -/
def dictSet (k : String) (v : Val) : Doc → Doc
  | [] => [(k, v)]
  | (k', v') :: rest => if k' = k then (k, v) :: rest else (k', v') :: dictSet k v rest

/-- Python `d.pop(k)` (the key removal part): remove the entry at key
`k` (the single occurrence, on a dict). -/
def dictPop (k : String) : Doc → Doc
  | [] => []
  | (k', v') :: rest => if k' = k then rest else (k', v') :: dictPop k rest

/-- `main.to_str_id`: an empty record passes through; otherwise, if the
record has an internal `_id` field, it is removed and a string field `id`
with its string form is set on a copy of the record. -/
def to_str_id (doc : Doc) : Doc :=
  match doc with
  | [] => doc
  | _ :: _ =>
    match dictGet "_id" doc with
    | none => doc
    | some v => dictSet "id" (Val.str v.toStr) (dictPop "_id" doc)

/-!
## Database state

`database.py` is not part of the repository snapshot (only its callers
are), so the data-access layer is modelled from the specification §4.2:
a process-wide optional connection (`Option DBState`, `none` =
unavailable), a generic insert returning the generated identifier as
text, and per-collection document lists.
-/

/-- The error conditions surfaced by the HTTP layer: `invalidInput`
(HTTP 400), `notFound` (404), `databaseUnavailable` (500), and
`validationError` — a pydantic `ValidationError` raised by a schema
(re-)validation inside a handler, which propagates unhandled (the spec
files it under "InvalidInput on schema violation"). -/
inductive Err where
  | invalidInput
  | notFound
  | databaseUnavailable
  | validationError
  deriving DecidableEq, Repr

/-- Modelled from the spec: the document database's state — the three
collections `category`, `product`, `order` plus the generator for the
next native identifier. -/
structure DBState where
  category : List Doc := []
  product : List Doc := []
  order : List Doc := []
  nextId : Nat := 0

/-- Modelled from the spec: `createDocument(collectionName, record)` of the
missing `database.py` — fails with `DatabaseUnavailable` when no connection
exists; otherwise inserts the record (with a fresh native `_id`) into the
named collection and returns the generated identifier as text. -/
def create_document (coll : String) (record : Doc) (odb : Option DBState) :
    Except Err (DBState × String) :=
  match odb with
  | none => .error .databaseUnavailable
  | some db =>
    let stored := dictSet "_id" (Val.oid db.nextId) record
    let db' :=
      if coll = "category" then { db with category := db.category ++ [stored], nextId := db.nextId + 1 }
      else if coll = "product" then { db with product := db.product ++ [stored], nextId := db.nextId + 1 }
      else if coll = "order" then { db with order := db.order ++ [stored], nextId := db.nextId + 1 }
      else { db with nextId := db.nextId + 1 }
    .ok (db', toString db.nextId)

/-- Equality of stored values as used by the exact-match filters this
service issues (`_id`, `id`, `slug`: native identifiers and strings);
filters on composite values never occur in this program. -/
def valEqB : Val → Val → Bool
  | .str a, .str b => a == b
  | .num a, .num b => a == b
  | .bool a, .bool b => a == b
  | .null, .null => true
  | .oid a, .oid b => a == b
  | _, _ => false

/-- Mongo `collection.find_one(filter)`: the first document all of whose
filter fields are present with the filter's values. -/
def find_one (filt : List (String × Val)) (coll : List Doc) : Option Doc :=
  coll.find? (fun d => filt.all (fun p => match dictGet p.1 d with
    | some v => valEqB v p.2
    | none => false))

/-- `bson.ObjectId(product_id)` inside its `try`: parse the path segment
as a native database identifier, `none` when parsing raises.  (The native
identifier format is abstracted as a decimal numeral, faithful to the
spec's "treat `product_id` as a native database identifier".) -/
def parseOid (s : String) : Option Nat :=
  if s.data ≠ [] ∧ s.data.all Char.isDigit then
    some (s.data.foldl (fun n c => 10 * n + (c.toNat - 48)) 0)
  else none

/-- Lookup strategy (a) of `main.get_product`: treat the path segment as
a native database identifier and look the product up by it. -/
def findByNativeId (db : DBState) (product_id : String) : Option Doc :=
  match parseOid product_id with
  | some n => find_one [("_id", Val.oid n)] db.product
  | none => none

/-- Lookup strategy (b) of `main.get_product`: a stored string field
named `id` equal to the path segment. -/
def findByIdField (db : DBState) (product_id : String) : Option Doc :=
  find_one [("id", Val.str product_id)] db.product

/-- Lookup strategy (c) of `main.get_product`: a stored `slug` field
equal to the path segment. -/
def findBySlug (db : DBState) (product_id : String) : Option Doc :=
  find_one [("slug", Val.str product_id)] db.product

/-- `main.get_product` (GET `/api/products/{product_id}`): 500 when no
database connection; otherwise try a native-identifier lookup, then a
string `id`-field lookup, then a `slug` lookup; 404 when nothing is
found. -/
def get_product (odb : Option DBState) (product_id : String) : Except Err Doc :=
  match odb with
  | none => .error .databaseUnavailable
  | some db =>
    let doc0 : Option Doc := findByNativeId db product_id
    let doc1 : Option Doc :=
      match doc0 with
      | none => findByIdField db product_id
      | some d => some d
    let doc2 : Option Doc :=
      match doc1 with
      | none => findBySlug db product_id
      | some d => some d
    match doc2 with
    | none => .error .notFound
    | some d => if d.isEmpty then .error .notFound else .ok (to_str_id d)

/-!
## Pricing endpoints
-/

/-- `main.QuoteItem`: the quote request's line-item type.  Unlike
`schemas.OrderItem` it carries no `ge` bounds on `price` or `quantity`
and its `product_id` is optional. -/
structure QuoteItem where
  product_id : Option String := none
  title : String
  price : ℚ
  quantity : ℤ
  deriving DecidableEq, Repr

/-- `main.QuoteRequest`: items plus an optional customer. -/
structure QuoteRequest where
  items : List QuoteItem
  customer : Option Customer := none
  deriving DecidableEq, Repr

/-- The JSON body returned by POST `/api/pricing/quote`. -/
structure QuoteResp where
  subtotal : ℚ
  shipping : ℚ
  tax : ℚ
  total : ℚ
  deriving DecidableEq, Repr

/-- The `OrderItem(product_id=i.product_id or "", title=i.title,
price=i.price, quantity=i.quantity)` construction performed inside
`pricing_quote`: pydantic re-validates the `schemas.OrderItem` field
bounds (`ge=0` on price, `ge=1` on quantity) and raises a
`ValidationError` on an out-of-bounds item. -/
def quoteToOrderItem (i : QuoteItem) : Except Err OrderItem :=
  if 0 ≤ i.price ∧ 1 ≤ i.quantity then
    .ok ⟨i.product_id.getD "", i.title, i.price, i.quantity⟩
  else .error .validationError

/-- The list comprehension `[OrderItem(...) for i in payload.items]`:
convert left to right, aborting at the first item whose `OrderItem`
construction raises. -/
def mapOrderItems : List QuoteItem → Except Err (List OrderItem)
  | [] => .ok []
  | i :: rest =>
    match quoteToOrderItem i with
    | .error e => .error e
    | .ok o =>
      match mapOrderItems rest with
      | .error e => .error e
      | .ok os => .ok (o :: os)

/-- `main.pricing_quote` (POST `/api/pricing/quote`): re-validate and
convert the items (propagating a `ValidationError`), run the three
pricing functions, and return the rounded figures with
`total = round(subtotal + shipping + tax, 2)`. -/
def pricing_quote (payload : QuoteRequest) : Except Err QuoteResp :=
  match mapOrderItems payload.items with
  | .error e => .error e
  | .ok items =>
    let subtotal := calc_subtotal items
    let shipping := calc_shipping subtotal payload.customer
    let tax := calc_tax subtotal shipping payload.customer
    .ok { subtotal := round2 subtotal
          shipping := round2 shipping
          tax := round2 tax
          total := round2 (subtotal + shipping + tax) }

/-!
## Order creation
-/

/-- `Optional[str]` serialized into a stored value. -/
def optStrVal : Option String → Val
  | none => .null
  | some s => .str s

/-- The `model_dump()` shape of an `OrderItem`. -/
def orderItemToVal (i : OrderItem) : Val :=
  .obj [("product_id", .str i.product_id), ("title", .str i.title),
        ("price", .num i.price), ("quantity", .num (i.quantity : ℚ))]

/-- The `model_dump()` shape of a `Customer`. -/
def customerToVal (c : Customer) : Val :=
  .obj [("full_name", .str c.full_name), ("email", .str c.email),
        ("phone", optStrVal c.phone), ("address_line1", .str c.address_line1),
        ("address_line2", optStrVal c.address_line2), ("city", .str c.city),
        ("state", optStrVal c.state), ("postal_code", .str c.postal_code),
        ("country", .str c.country)]

/-- `payload.model_dump()`: the order payload as a dict, fields in
declaration order. -/
def orderToDoc (o : Order) : Doc :=
  [("items", .arr (o.items.map orderItemToVal)),
   ("customer", customerToVal o.customer),
   ("subtotal", .num o.subtotal),
   ("shipping", .num o.shipping),
   ("total", .num o.total),
   ("status", .str o.status)]

/-- The JSON body returned by POST `/api/orders` on success. -/
structure OrderResp where
  id : String
  status : String
  subtotal : ℚ
  shipping : ℚ
  tax : ℚ
  total : ℚ
  deriving DecidableEq, Repr

/-- The "safe order snapshot" built inside `main.create_order`:
`payload.model_dump()` with the client-supplied `subtotal`, `shipping`
and `total` overwritten by the server-side recomputation. -/
def safeOrder (payload : Order) : Doc :=
  dictSet "total"
    (.num (round2 (calc_subtotal payload.items
      + calc_shipping (calc_subtotal payload.items) (some payload.customer)
      + calc_tax (calc_subtotal payload.items)
          (calc_shipping (calc_subtotal payload.items) (some payload.customer))
          (some payload.customer))))
    (dictSet "shipping"
      (.num (round2 (calc_shipping (calc_subtotal payload.items) (some payload.customer))))
      (dictSet "subtotal" (.num (round2 (calc_subtotal payload.items)))
        (orderToDoc payload)))

/-- `main.create_order` (POST `/api/orders`): reject an empty item list
with 400 before touching the database; otherwise recompute all totals
server-side, overwrite the client-supplied `subtotal`/`shipping`/`total`
in the dumped payload (`safeOrder`), persist that snapshot, and answer
with the computed figures (including the tax, which is not stored). -/
def create_order (odb : Option DBState) (payload : Order) :
    Option DBState × Except Err OrderResp :=
  if payload.items.isEmpty then (odb, .error .invalidInput)
  else
    let subtotal := calc_subtotal payload.items
    let shipping_val := calc_shipping subtotal (some payload.customer)
    let tax_val := calc_tax subtotal shipping_val (some payload.customer)
    let total_val := round2 (subtotal + shipping_val + tax_val)
    match create_document "order" (safeOrder payload) odb with
    | .error e => (odb, .error e)
    | .ok (db', inserted_id) =>
      (some db', .ok { id := inserted_id, status := "received",
                       subtotal := round2 subtotal, shipping := round2 shipping_val,
                       tax := tax_val, total := total_val })

/-!
## Demo-data seeding
-/

/-- The fixed demo categories of `main._seed_payload`. -/
def seedCategories : List Doc :=
  [[("name", .str "Raw Honey"), ("slug", .str "raw-honey"),
    ("description", .str "Unfiltered, unheated honey")],
   [("name", .str "Flavored Honey"), ("slug", .str "flavored-honey"),
    ("description", .str "Infused with natural botanicals")],
   [("name", .str "Propolis"), ("slug", .str "propolis"),
    ("description", .str "Natural resin with benefits")],
   [("name", .str "Beeswax"), ("slug", .str "beeswax"),
    ("description", .str "Pure wax for candles & crafts")]]

/-- The fixed demo products of `main._seed_payload`. -/
def seedProducts : List Doc :=
  [[("title", .str "Raw Wildflower Honey 500g"),
    ("description", .str "Golden, floral notes from diverse wild blooms."),
    ("price", .num 12.99), ("category", .str "raw-honey"),
    ("image_url", .str "https://images.unsplash.com/photo-1505575972945-530f3fdde9f0?q=80&w=1200&auto=format&fit=crop"),
    ("in_stock", .bool true), ("weight_grams", .num 500), ("variant", .str "Wildflower")],
   [("title", .str "Raw Acacia Honey 250g"),
    ("description", .str "Light, delicate taste with slow crystallization."),
    ("price", .num 9.5), ("category", .str "raw-honey"),
    ("image_url", .str "https://images.unsplash.com/photo-1519681393784-d120267933ba?q=80&w=1200&auto=format&fit=crop"),
    ("in_stock", .bool true), ("weight_grams", .num 250), ("variant", .str "Acacia")],
   [("title", .str "Lavender Infused Honey 250g"),
    ("description", .str "Soothing lavender infusion, perfect for tea."),
    ("price", .num 8.75), ("category", .str "flavored-honey"),
    ("image_url", .str "https://images.unsplash.com/photo-1495501468073-4f1d9cfe4c0b?q=80&w=1200&auto=format&fit=crop"),
    ("in_stock", .bool true), ("weight_grams", .num 250), ("variant", .str "Lavender")],
   [("title", .str "Cinnamon Infused Honey 250g"),
    ("description", .str "Warm cinnamon notes blended with raw honey."),
    ("price", .num 8.95), ("category", .str "flavored-honey"),
    ("image_url", .str "https://images.unsplash.com/photo-1498579150354-977475b7ea0b?q=80&w=1200&auto=format&fit=crop"),
    ("in_stock", .bool true), ("weight_grams", .num 250), ("variant", .str "Cinnamon")],
   [("title", .str "Propolis Tincture 30ml"),
    ("description", .str "High-strength propolis extract."),
    ("price", .num 14.0), ("category", .str "propolis"),
    ("image_url", .str "https://images.unsplash.com/photo-1615485737651-6d7d5eb430dc?q=80&w=1200&auto=format&fit=crop"),
    ("in_stock", .bool true), ("variant", .str "Tincture")],
   [("title", .str "Beeswax Candles (Set of 2)"),
    ("description", .str "Naturally scented hand-rolled candles."),
    ("price", .num 11.25), ("category", .str "beeswax"),
    ("image_url", .str "https://images.unsplash.com/photo-1601582585289-4b59f95f3a1b?q=80&w=1200&auto=format&fit=crop"),
    ("in_stock", .bool true), ("variant", .str "Candles")]]

/-- The `{"categories": …, "products": …}` counts returned by
`ensure_seeded`. -/
structure SeedCounts where
  categories : Nat
  products : Nat
  deriving DecidableEq, Repr

/-- The database driver calls inside `ensure_seeded`'s `try` block, in
program order; the failure oracle (`fail`) says which of them raise. -/
def seedCallCatCount : Nat := 0
def seedCallCatInsert : Nat := 1
def seedCallProdCount : Nat := 2
def seedCallProdInsert : Nat := 3

/-- The product half of `ensure_seeded`'s `try` block, entered with the
state and counts accumulated by the category half: count the `product`
collection, and insert the demo products when it is empty.  A raising
call aborts the block, keeping the effects so far (a raising
`insert_many` is modelled as inserting nothing). -/
def seedProductsPhase (fail : Nat → Bool) (db : DBState) (c : SeedCounts) :
    DBState × SeedCounts :=
  if fail seedCallProdCount then (db, c)
  else if db.product.length = 0 then
    if fail seedCallProdInsert then (db, c)
    else ({ db with product := db.product ++ seedProducts },
          { c with products := seedProducts.length })
  else (db, c)

/-- `main.ensure_seeded`: best-effort, idempotent demo seeding.  Returns
`{categories: 0, products: 0}` immediately when the database handle is
absent; otherwise inserts the demo categories (resp. products) only when
the corresponding collection counts zero documents, swallowing any
failure of the four driver calls (`except Exception: pass`). -/
def ensure_seeded (fail : Nat → Bool) (odb : Option DBState) :
    Option DBState × SeedCounts :=
  match odb with
  | none => (none, ⟨0, 0⟩)
  | some db =>
    if fail seedCallCatCount then (some db, ⟨0, 0⟩)
    else if db.category.length = 0 then
      if fail seedCallCatInsert then (some db, ⟨0, 0⟩)
      else
        let r := seedProductsPhase fail
          { db with category := db.category ++ seedCategories }
          ⟨seedCategories.length, 0⟩
        (some r.1, r.2)
    else
      let r := seedProductsPhase fail db ⟨0, 0⟩
      (some r.1, r.2)

/-!
## Helper lemmas
-/

theorem strUpper_US : strUpper "US" = "US" := by decide

theorem roundNonneg {q : ℚ} (h : 0 ≤ q) : (0 : ℤ) ≤ round q := by
  rw [round_eq]
  exact Int.floor_nonneg.mpr (by linarith)

theorem round2_nonneg {q : ℚ} (h : 0 ≤ q) : 0 ≤ round2 q := by
  unfold round2
  have h2 : (0 : ℤ) ≤ round (q * 100) := roundNonneg (by positivity)
  have h3 : (0 : ℚ) ≤ ((round (q * 100) : ℤ) : ℚ) := by exact_mod_cast h2
  exact div_nonneg h3 (by norm_num)

theorem round2_idem (q : ℚ) : round2 (round2 q) = round2 q := by
  unfold round2
  rw [div_mul_cancel₀ _ (by norm_num : (100 : ℚ) ≠ 0), round_intCast]

theorem calc_shipping_some (s : ℚ) (c : Customer) :
    calc_shipping s (some c) =
      if strUpper c.country ≠ "US" then (if s > 0 then 12 else 0)
      else if s ≥ 50 then 0 else if s > 0 then 5 else 0 := rfl

theorem calc_shipping_none (s : ℚ) :
    calc_shipping s none = if s ≥ 50 then 0 else if s > 0 then 5 else 0 := by
  simp [calc_shipping, strUpper_US]

theorem calc_shipping_body (s : ℚ) (c : Option Customer) :
    calc_shipping s c =
      if strUpper ((Option.map Customer.country c).getD "US") ≠ "US" then
        (if s > 0 then 12 else 0)
      else if s ≥ 50 then 0 else if s > 0 then 5 else 0 := rfl

theorem calc_shipping_cases (s : ℚ) (c : Option Customer) :
    calc_shipping s c = 0 ∨ calc_shipping s c = 5 ∨ calc_shipping s c = 12 := by
  rw [calc_shipping_body]
  split_ifs <;> simp

theorem calc_shipping_nonneg (s : ℚ) (c : Option Customer) :
    0 ≤ calc_shipping s c := by
  rcases calc_shipping_cases s c with h | h | h <;> rw [h] <;> norm_num

theorem round2_zero : round2 0 = 0 := by simp [round2]

theorem round2_int (k : ℤ) : round2 ((k : ℚ)) = (k : ℚ) := by
  unfold round2
  rw [show ((k : ℚ) * 100) = ((k * 100 : ℤ) : ℚ) by push_cast; ring, round_intCast]
  push_cast
  field_simp

theorem round2_calc_shipping (s : ℚ) (c : Option Customer) :
    round2 (calc_shipping s c) = calc_shipping s c := by
  rcases calc_shipping_cases s c with h | h | h <;> rw [h]
  · simpa using round2_int 0
  · simpa using round2_int 5
  · simpa using round2_int 12

/-- The fixed state-rate lookup of the claim: case-insensitive over the
table `\x7bCA: 0.0825, NY: 0.088, TX: 0.0625, FL: 0.06\x7d` with default
`0.07` for an unknown or absent state. -/
def specTaxRate (state : Option String) : ℚ :=
  if strUpper (state.getD "") = "CA" then 0.0825
  else if strUpper (state.getD "") = "NY" then 0.088
  else if strUpper (state.getD "") = "TX" then 0.0625
  else if strUpper (state.getD "") = "FL" then 0.06
  else 0.07

theorem assocGetD_STATE_TAX (st : String) :
    assocGetD STATE_TAX st 0.07 =
      if st = "CA" then 0.0825
      else if st = "NY" then 0.088
      else if st = "TX" then 0.0625
      else if st = "FL" then 0.06
      else 0.07 := by
  by_cases h1 : st = "CA"
  · subst h1; rfl
  by_cases h2 : st = "NY"
  · subst h2; rfl
  by_cases h3 : st = "TX"
  · subst h3; rfl
  by_cases h4 : st = "FL"
  · subst h4; rfl
  have e1 : ("CA" == st) = false := beq_eq_false_iff_ne.mpr (Ne.symm h1)
  have e2 : ("NY" == st) = false := beq_eq_false_iff_ne.mpr (Ne.symm h2)
  have e3 : ("TX" == st) = false := beq_eq_false_iff_ne.mpr (Ne.symm h3)
  have e4 : ("FL" == st) = false := beq_eq_false_iff_ne.mpr (Ne.symm h4)
  rw [if_neg h1, if_neg h2, if_neg h3, if_neg h4]
  unfold assocGetD STATE_TAX
  simp [List.find?, e1, e2, e3, e4]

theorem calc_tax_body (s sh : ℚ) (c : Option Customer) :
    calc_tax s sh c =
      if strUpper ((Option.map Customer.country c).getD "US") ≠ "US" then 0
      else round2 (s * assocGetD STATE_TAX (strUpper ((c.bind Customer.state).getD "")) 0.07) := rfl

theorem calc_tax_some (s sh : ℚ) (c : Customer) :
    calc_tax s sh (some c) =
      if strUpper c.country ≠ "US" then 0
      else round2 (s * specTaxRate c.state) := by
  rw [calc_tax_body]
  show (if strUpper c.country ≠ "US" then 0
    else round2 (s * assocGetD STATE_TAX (strUpper (c.state.getD "")) 0.07)) = _
  rw [assocGetD_STATE_TAX]
  rfl

theorem calc_tax_none (s sh : ℚ) : calc_tax s sh none = round2 (s * 0.07) := by
  rw [calc_tax_body]
  show (if strUpper "US" ≠ "US" then 0
    else round2 (s * assocGetD STATE_TAX (strUpper "") 0.07)) = _
  rw [assocGetD_STATE_TAX]
  simp [strUpper_US, strUpper]

theorem specTaxRate_pos (state : Option String) : 0 < specTaxRate state := by
  unfold specTaxRate
  split_ifs <;> norm_num

theorem calc_tax_nonneg (s sh : ℚ) (c : Option Customer) (hs : 0 ≤ s) :
    0 ≤ calc_tax s sh c := by
  cases c with
  | none =>
    rw [calc_tax_none]
    exact round2_nonneg (by positivity)
  | some c =>
    rw [calc_tax_some]
    split_ifs with h
    · exact le_refl 0
    · exact round2_nonneg (mul_nonneg hs (le_of_lt (specTaxRate_pos c.state)))

theorem round2_calc_tax (s sh : ℚ) (c : Option Customer) :
    round2 (calc_tax s sh c) = calc_tax s sh c := by
  cases c with
  | none => rw [calc_tax_none, round2_idem]
  | some c =>
    rw [calc_tax_some]
    split_ifs with h
    · exact round2_zero
    · rw [round2_idem]

theorem calc_subtotal_nonneg (items : List OrderItem) : 0 ≤ calc_subtotal items := by
  apply round2_nonneg
  apply List.sum_nonneg
  intro x hx
  obtain ⟨i, _, rfl⟩ := List.mem_map.mp hx
  have h1 : (0 : ℚ) ≤ max 0 i.price := le_max_left 0 i.price
  have h2 : (0 : ℚ) ≤ ((max 1 i.quantity : ℤ) : ℚ) := by
    have h3 : (1 : ℤ) ≤ max 1 i.quantity := le_max_left 1 i.quantity
    exact_mod_cast le_trans zero_le_one h3
  exact mul_nonneg h1 h2

/-- A concrete US customer, used in concrete instances. -/
def usCustomer : Customer :=
  { full_name := "Ada Lovelace", email := "ada@test.com",
    address_line1 := "1 Main St", city := "Springfield",
    postal_code := "12345", country := "US" }

/-- A concrete Californian customer with a lower-case state code. -/
def caCustomer : Customer :=
  { full_name := "Carol Doe", email := "carol@test.com",
    address_line1 := "2 Oak Ave", city := "Los Angeles",
    state := some "ca", postal_code := "90001", country := "us" }

/-- A concrete non-US customer. -/
def intlCustomer : Customer :=
  { full_name := "Dieter Muster", email := "dieter@test.de",
    address_line1 := "Hauptstr. 3", city := "Berlin",
    postal_code := "10115", country := "de" }

/-!
## Claim theorems: the pricing engine
-/

/-- C5: for every list of line items, `calc_subtotal` is the sum over
all items of `max(0, price) * max(1, quantity)` rounded to 2 decimal
places, is always non-negative, returns `0.0` on the single item
`{price: -5, quantity: 0}` and `25.99` on `{price: 12.993, quantity: 2}`. -/
theorem calc_subtotal_spec :
    (∀ items : List OrderItem,
      calc_subtotal items =
        round2 ((items.map (fun i => max 0 i.price * ((max 1 i.quantity : ℤ) : ℚ))).sum)) ∧
    (∀ items : List OrderItem, 0 ≤ calc_subtotal items) ∧
    calc_subtotal [⟨"", "widget", -5, 0⟩] = 0 ∧
    calc_subtotal [⟨"", "widget", 12.993, 2⟩] = 25.99 := by
  refine ⟨fun _ => rfl, calc_subtotal_nonneg, ?_, ?_⟩
  · norm_num [calc_subtotal, round2, round_eq]
  · norm_num [calc_subtotal, round2, round_eq]

/-- C4: `calc_shipping` charges non-US destinations (case-insensitively)
12.00 on a positive subtotal and 0.00 otherwise; US destinations
(including an absent destination, whose country defaults to "US") get
free shipping from 50.00, else 5.00 on a positive subtotal, else 0.00;
in particular 50.00 ships free in the US and 49.99 costs 5.00. -/
theorem calc_shipping_spec :
    (∀ (s : ℚ) (c : Customer), strUpper c.country ≠ "US" →
      calc_shipping s (some c) = if s > 0 then 12 else 0) ∧
    (∀ (s : ℚ) (c : Customer), strUpper c.country = "US" →
      calc_shipping s (some c) = if s ≥ 50 then 0 else if s > 0 then 5 else 0) ∧
    (∀ s : ℚ, calc_shipping s none = if s ≥ 50 then 0 else if s > 0 then 5 else 0) ∧
    calc_shipping 50 (some usCustomer) = 0 ∧
    calc_shipping 49.99 (some usCustomer) = 5 := by
  have hsome : ∀ (s : ℚ) (c : Customer), calc_shipping s (some c) =
      if strUpper c.country ≠ "US" then (if s > 0 then 12 else 0)
      else if s ≥ 50 then 0 else if s > 0 then 5 else 0 := fun s c => rfl
  refine ⟨?_, ?_, ?_, ?_, ?_⟩
  · intro s c h; rw [hsome, if_pos h]
  · intro s c h; rw [hsome, if_neg (by simp [h])]
  · intro s; exact calc_shipping_none s
  · rw [hsome, if_neg (by rw [usCustomer]; simp [strUpper_US])]
    norm_num
  · rw [hsome, if_neg (by rw [usCustomer]; simp [strUpper_US])]
    norm_num

theorem calc_shipping_spec_witness :
    strUpper intlCustomer.country ≠ "US" ∧
    calc_shipping 10 (some intlCustomer) = 12 :=
  ⟨by decide, by rw [calc_shipping_spec.1 10 intlCustomer (by decide)]; norm_num⟩

/-- C3: `calc_tax` returns 0.00 for destinations whose country is not
"US" case-insensitively; for US destinations (including an absent one)
it returns `round(subtotal * rate, 2)` with the rate looked up
case-insensitively in the fixed table (0.07 when the state is absent or
unknown); and it never depends on the `shipping` argument. -/
theorem calc_tax_spec :
    (∀ (s sh : ℚ) (c : Customer), strUpper c.country ≠ "US" →
      calc_tax s sh (some c) = 0) ∧
    (∀ (s sh : ℚ) (c : Customer), strUpper c.country = "US" →
      calc_tax s sh (some c) = round2 (s * specTaxRate c.state)) ∧
    (∀ s sh : ℚ, calc_tax s sh none = round2 (s * 0.07)) ∧
    (∀ (s sh sh' : ℚ) (c : Option Customer), calc_tax s sh c = calc_tax s sh' c) := by
  refine ⟨?_, ?_, calc_tax_none, fun _ _ _ _ => rfl⟩
  · intro s sh c h; rw [calc_tax_some, if_pos h]
  · intro s sh c h; rw [calc_tax_some, if_neg (by simp [h])]

theorem strUpper_ca : strUpper "ca" = "CA" := by decide

theorem calc_tax_spec_witness :
    strUpper caCustomer.country = "US" ∧
    calc_tax 100 3 (some caCustomer) = 8.25 := by
  refine ⟨by decide, ?_⟩
  rw [calc_tax_spec.2.1 100 3 caCustomer (by decide)]
  have h : specTaxRate caCustomer.state = 0.0825 := by
    simp [specTaxRate, caCustomer, strUpper_ca]
  rw [h]
  norm_num [round2, round_eq]

/-!
## Dictionary lemmas
-/

theorem dictGet_dictSet_self (k : String) (v : Val) (d : Doc) :
    dictGet k (dictSet k v d) = some v := by
  induction d with
  | nil => simp [dictSet, dictGet]
  | cons p rest ih =>
    obtain ⟨k', v'⟩ := p
    by_cases h : k' = k
    · simp [dictSet, h, dictGet]
    · simp [dictSet, h, dictGet, ih]

theorem dictGet_dictSet_ne (k1 k2 : String) (v : Val) (d : Doc) (h : k1 ≠ k2) :
    dictGet k1 (dictSet k2 v d) = dictGet k1 d := by
  have h' : ¬(k2 = k1) := Ne.symm h
  induction d with
  | nil => simp [dictSet, dictGet, h']
  | cons p rest ih =>
    obtain ⟨k', v'⟩ := p
    by_cases h2 : k' = k2
    · simp [dictSet, h2, dictGet, h']
    · simp [dictSet, h2, dictGet, ih]

theorem dictGet_dictPop_ne (k1 k2 : String) (d : Doc) (h : k1 ≠ k2) :
    dictGet k1 (dictPop k2 d) = dictGet k1 d := by
  have h' : ¬(k2 = k1) := Ne.symm h
  induction d with
  | nil => simp [dictPop, dictGet]
  | cons p rest ih =>
    obtain ⟨k', v'⟩ := p
    by_cases h2 : k' = k2
    · simp [dictPop, h2, dictGet, Ne.symm h]
    · simp [dictPop, h2, dictGet, ih]

theorem dictGet_eq_none_of_not_mem (k : String) (d : Doc)
    (h : k ∉ d.map Prod.fst) : dictGet k d = none := by
  induction d with
  | nil => rfl
  | cons p rest ih =>
    obtain ⟨k', v'⟩ := p
    simp only [List.map_cons, List.mem_cons] at h
    push_neg at h
    simp [dictGet, Ne.symm h.1, ih h.2]

theorem not_mem_keys_dictPop (k : String) (d : Doc)
    (hnd : (d.map Prod.fst).Nodup) : k ∉ (dictPop k d).map Prod.fst := by
  induction d with
  | nil => simp [dictPop]
  | cons p rest ih =>
    obtain ⟨k', v'⟩ := p
    simp only [List.map_cons, List.nodup_cons] at hnd
    by_cases h : k' = k
    · subst h
      simpa [dictPop] using hnd.1
    · simp only [dictPop, if_neg h, List.map_cons, List.mem_cons]
      push_neg
      exact ⟨fun hh => h hh.symm, ih hnd.2⟩

theorem dictGet_dictPop_self (k : String) (d : Doc)
    (hnd : (d.map Prod.fst).Nodup) : dictGet k (dictPop k d) = none :=
  dictGet_eq_none_of_not_mem _ _ (not_mem_keys_dictPop k d hnd)

/-!
## Claim theorem: identifier translation
-/

/-- C9: `to_str_id` passes an empty record through, passes a record with
no internal `_id` field through unchanged, and maps a record containing
`_id` to a copy in which `_id` is removed, a text field `id` holds the
identifier's string form, and every other field is unchanged (the
function builds a copy, so the input record is never mutated). -/
theorem to_str_id_spec :
    to_str_id [] = [] ∧
    (∀ d : Doc, dictGet "_id" d = none → to_str_id d = d) ∧
    (∀ (d : Doc) (v : Val), (d.map Prod.fst).Nodup → dictGet "_id" d = some v →
      dictGet "_id" (to_str_id d) = none ∧
      dictGet "id" (to_str_id d) = some (Val.str v.toStr) ∧
      (∀ k, k ≠ "_id" → k ≠ "id" → dictGet k (to_str_id d) = dictGet k d)) := by
  refine ⟨rfl, ?_, ?_⟩
  · intro d h
    cases d with
    | nil => rfl
    | cons p rest => simp [to_str_id, h]
  · intro d v hnd h
    have hval : to_str_id d = dictSet "id" (Val.str v.toStr) (dictPop "_id" d) := by
      cases d with
      | nil => simp [dictGet] at h
      | cons p rest => simp [to_str_id, h]
    refine ⟨?_, ?_, ?_⟩
    · rw [hval, dictGet_dictSet_ne _ _ _ _ (by decide), dictGet_dictPop_self _ _ hnd]
    · rw [hval, dictGet_dictSet_self]
    · intro k hk1 hk2
      rw [hval, dictGet_dictSet_ne _ _ _ _ hk2, dictGet_dictPop_ne _ _ _ hk1]

theorem to_str_id_spec_witness :
    dictGet "_id" [("_id", Val.oid 7), ("name", Val.str "x")] = some (Val.oid 7) ∧
    dictGet "id" (to_str_id [("_id", Val.oid 7), ("name", Val.str "x")])
      = some (Val.str "7") ∧
    dictGet "name" (to_str_id [("_id", Val.oid 7), ("name", Val.str "x")])
      = some (Val.str "x") ∧
    dictGet "_id" (to_str_id [("_id", Val.oid 7), ("name", Val.str "x")]) = none := by
  have h := to_str_id_spec.2.2 [("_id", Val.oid 7), ("name", Val.str "x")]
    (Val.oid 7) (by simp) rfl
  refine ⟨rfl, ?_, ?_, h.1⟩
  · rw [h.2.1]; rfl
  · rw [h.2.2 "name" (by decide) (by decide)]; rfl

/-!
## Claim theorem: product lookup chain
-/

theorem find_one_key_some (k : String) (v : Val) (coll : List Doc) (d : Doc)
    (h : find_one [(k, v)] coll = some d) : ∃ w, dictGet k d = some w := by
  unfold find_one at h
  have hp := List.find?_some h
  simp only [List.all_cons, List.all_nil, Bool.and_true] at hp
  cases hg : dictGet k d with
  | none => rw [hg] at hp; cases hp
  | some w => exact ⟨w, rfl⟩

theorem find_one_ne_nil (k : String) (v : Val) (coll : List Doc) (d : Doc)
    (h : find_one [(k, v)] coll = some d) : d.isEmpty = false := by
  obtain ⟨w, hw⟩ := find_one_key_some k v coll d h
  cases d with
  | nil => simp [dictGet] at hw
  | cons p rest => rfl

theorem findByNativeId_ne_nil {db : DBState} {pid : String} {d : Doc}
    (h : findByNativeId db pid = some d) : d.isEmpty = false := by
  unfold findByNativeId at h
  cases hp : parseOid pid with
  | none => rw [hp] at h; cases h
  | some n => rw [hp] at h; exact find_one_ne_nil _ _ _ _ h

/-- C7: the product-fetch endpoint tries, in order, (a) the native
database identifier, (b) a stored string field `id`, (c) a stored `slug`
field, returning the first hit (translated by `to_str_id`); it fails with
`DatabaseUnavailable` when no connection exists and with `NotFound` when
no strategy matches. -/
theorem get_product_lookup_chain :
    (∀ pid, get_product none pid = .error .databaseUnavailable) ∧
    (∀ (db : DBState) (pid : String) (d : Doc), findByNativeId db pid = some d →
      get_product (some db) pid = .ok (to_str_id d)) ∧
    (∀ (db : DBState) (pid : String) (d : Doc), findByNativeId db pid = none →
      findByIdField db pid = some d →
      get_product (some db) pid = .ok (to_str_id d)) ∧
    (∀ (db : DBState) (pid : String) (d : Doc), findByNativeId db pid = none →
      findByIdField db pid = none → findBySlug db pid = some d →
      get_product (some db) pid = .ok (to_str_id d)) ∧
    (∀ (db : DBState) (pid : String), findByNativeId db pid = none →
      findByIdField db pid = none → findBySlug db pid = none →
      get_product (some db) pid = .error .notFound) := by
  refine ⟨fun pid => rfl, ?_, ?_, ?_, ?_⟩
  · intro db pid d h
    simp [get_product, h, findByNativeId_ne_nil h]
  · intro db pid d h0 h1
    simp [get_product, h0, h1, find_one_ne_nil _ _ _ _ h1]
  · intro db pid d h0 h1 h2
    simp [get_product, h0, h1, h2, find_one_ne_nil _ _ _ _ h2]
  · intro db pid h0 h1 h2
    simp [get_product, h0, h1, h2]

/-- A demo product stored with a `slug` but no string `id` field, whose
slug does not parse as a native identifier. -/
def slugOnlyProduct : Doc :=
  [("_id", Val.oid 1), ("title", Val.str "Raw Acacia Honey 250g"),
   ("slug", Val.str "acacia")]

/-- A database whose product collection holds only `slugOnlyProduct`. -/
def demoDB : DBState := { product := [slugOnlyProduct] }

theorem get_product_lookup_chain_witness :
    findByNativeId demoDB "acacia" = none ∧
    findByIdField demoDB "acacia" = none ∧
    findBySlug demoDB "acacia" = some slugOnlyProduct ∧
    get_product (some demoDB) "acacia" = .ok (to_str_id slugOnlyProduct) :=
  ⟨rfl, rfl, rfl,
    get_product_lookup_chain.2.2.2.1 demoDB "acacia" slugOnlyProduct rfl rfl rfl⟩

/-!
## Claim theorems: order creation and quoting
-/

theorem isEmpty_false_of_ne_nil {α : Type} {l : List α} (h : l ≠ []) :
    l.isEmpty = false := by
  cases l with
  | nil => exact absurd rfl h
  | cons a t => rfl

theorem round2_calc_subtotal (items : List OrderItem) :
    round2 (calc_subtotal items) = calc_subtotal items := round2_idem _

theorem create_order_ok (db : DBState) (payload : Order)
    (h : payload.items.isEmpty = false) :
    create_order (some db) payload =
      (some { db with
          order := db.order ++ [dictSet "_id" (Val.oid db.nextId) (safeOrder payload)],
          nextId := db.nextId + 1 },
       Except.ok
         { id := toString db.nextId, status := "received",
           subtotal := round2 (calc_subtotal payload.items),
           shipping := round2 (calc_shipping (calc_subtotal payload.items)
             (some payload.customer)),
           tax := calc_tax (calc_subtotal payload.items)
             (calc_shipping (calc_subtotal payload.items) (some payload.customer))
             (some payload.customer),
           total := round2 (calc_subtotal payload.items
             + calc_shipping (calc_subtotal payload.items) (some payload.customer)
             + calc_tax (calc_subtotal payload.items)
                 (calc_shipping (calc_subtotal payload.items) (some payload.customer))
                 (some payload.customer)) }) := by
  unfold create_order create_document
  rw [h]
  simp

/-- C6: POST `/api/orders` with an empty (or, after request validation,
missing) item list fails with `InvalidInput` (HTTP 400), and the stored
state is untouched — the emptiness check runs before any persistence
attempt. -/
theorem create_order_empty_items_rejected (odb : Option DBState) (payload : Order)
    (h : payload.items = []) :
    create_order odb payload = (odb, Except.error Err.invalidInput) := by
  unfold create_order
  rw [h]
  rfl

theorem create_order_empty_items_rejected_witness :
    create_order (some {})
      { items := [], customer := usCustomer, subtotal := 1, shipping := 2, total := 3 }
      = (some {}, Except.error Err.invalidInput) :=
  create_order_empty_items_rejected _ _ rfl

/-- C2: the persisted order document's `subtotal`, `shipping` and `total`
equal the server-recomputed `calc_subtotal`, `calc_shipping` and
`round(subtotal + shipping + tax, 2)`, whatever totals the client sent;
the stored document has no `tax` field while the response carries the
computed tax. -/
theorem create_order_overwrites_client_totals (items : List OrderItem) (c : Customer)
    (sub sh tot : ℚ) (st : String) (db : DBState) (h : items ≠ []) :
    ∃ (db' : DBState) (r : OrderResp) (stored : Doc),
      create_order (some db) ⟨items, c, sub, sh, tot, st⟩ = (some db', Except.ok r) ∧
      db'.order = db.order ++ [stored] ∧
      dictGet "subtotal" stored = some (Val.num (calc_subtotal items)) ∧
      dictGet "shipping" stored
        = some (Val.num (calc_shipping (calc_subtotal items) (some c))) ∧
      dictGet "total" stored
        = some (Val.num (round2 (calc_subtotal items
            + calc_shipping (calc_subtotal items) (some c)
            + calc_tax (calc_subtotal items)
                (calc_shipping (calc_subtotal items) (some c)) (some c)))) ∧
      dictGet "tax" stored = none ∧
      r.tax = calc_tax (calc_subtotal items)
        (calc_shipping (calc_subtotal items) (some c)) (some c) := by
  refine ⟨_, _, dictSet "_id" (Val.oid db.nextId) (safeOrder ⟨items, c, sub, sh, tot, st⟩),
    create_order_ok db ⟨items, c, sub, sh, tot, st⟩ (isEmpty_false_of_ne_nil h),
    rfl, ?_, ?_, rfl, rfl, rfl⟩
  · rw [show calc_subtotal items = round2 (calc_subtotal items)
      from (round2_calc_subtotal items).symm]
    rfl
  · rw [show calc_shipping (calc_subtotal items) (some c)
        = round2 (calc_shipping (calc_subtotal items) (some c))
      from (round2_calc_shipping _ _).symm]
    rfl

theorem create_order_overwrites_client_totals_witness :
    ∃ (db' : DBState) (r : OrderResp) (stored : Doc),
      create_order (some {})
        { items := [⟨"p1", "honey", 10, 2⟩], customer := usCustomer,
          subtotal := 999, shipping := 999, total := 999 }
        = (some db', Except.ok r) ∧
      db'.order = [] ++ [stored] ∧
      dictGet "subtotal" stored
        = some (Val.num (calc_subtotal [⟨"p1", "honey", 10, 2⟩])) ∧
      dictGet "shipping" stored
        = some (Val.num (calc_shipping (calc_subtotal [⟨"p1", "honey", 10, 2⟩])
            (some usCustomer))) ∧
      dictGet "total" stored
        = some (Val.num (round2 (calc_subtotal [⟨"p1", "honey", 10, 2⟩]
            + calc_shipping (calc_subtotal [⟨"p1", "honey", 10, 2⟩]) (some usCustomer)
            + calc_tax (calc_subtotal [⟨"p1", "honey", 10, 2⟩])
                (calc_shipping (calc_subtotal [⟨"p1", "honey", 10, 2⟩]) (some usCustomer))
                (some usCustomer)))) ∧
      dictGet "tax" stored = none ∧
      r.tax = calc_tax (calc_subtotal [⟨"p1", "honey", 10, 2⟩])
        (calc_shipping (calc_subtotal [⟨"p1", "honey", 10, 2⟩]) (some usCustomer))
        (some usCustomer) :=
  create_order_overwrites_client_totals [⟨"p1", "honey", 10, 2⟩] usCustomer
    999 999 999 "pending" {} (by simp)

theorem pricing_quote_ok (payload : QuoteRequest) (items : List OrderItem)
    (hconv : mapOrderItems payload.items = Except.ok items) :
    pricing_quote payload = Except.ok
      { subtotal := round2 (calc_subtotal items),
        shipping := round2 (calc_shipping (calc_subtotal items) payload.customer),
        tax := round2 (calc_tax (calc_subtotal items)
          (calc_shipping (calc_subtotal items) payload.customer) payload.customer),
        total := round2 (calc_subtotal items
          + calc_shipping (calc_subtotal items) payload.customer
          + calc_tax (calc_subtotal items)
              (calc_shipping (calc_subtotal items) payload.customer)
              payload.customer) } := by
  unfold pricing_quote
  rw [hconv]

theorem mapOrderItems_ne_nil {qitems : List QuoteItem} {oitems : List OrderItem}
    (hconv : mapOrderItems qitems = Except.ok oitems) (h : qitems ≠ []) :
    oitems ≠ [] := by
  cases qitems with
  | nil => exact absurd rfl h
  | cons a rest =>
    intro hnil
    subst hnil
    unfold mapOrderItems at hconv
    cases hq : quoteToOrderItem a with
    | error e => rw [hq] at hconv; cases hconv
    | ok o =>
      rw [hq] at hconv
      cases hr : mapOrderItems rest with
      | error e => rw [hr] at hconv; cases hconv
      | ok os => rw [hr] at hconv; simp at hconv

/-- C1: for line items both endpoints admit, the quote endpoint and the
order-creation endpoint compute identical subtotal, shipping, tax and
total: both invoke `calc_subtotal`, `calc_shipping`, `calc_tax` and
combine them as `total = round(subtotal + shipping + tax, 2)`.
(`oitems` is the items' image under the handler's validating `OrderItem`
conversion; on items that conversion rejects, neither endpoint computes
totals.) -/
theorem quote_and_order_totals_agree (qitems : List QuoteItem)
    (oitems : List OrderItem) (c : Customer) (sub sh tot : ℚ) (st : String)
    (db : DBState) (hconv : mapOrderItems qitems = Except.ok oitems)
    (h : qitems ≠ []) :
    ∃ (q : QuoteResp) (r : OrderResp),
      pricing_quote ⟨qitems, some c⟩ = Except.ok q ∧
      (create_order (some db) ⟨oitems, c, sub, sh, tot, st⟩).2 = Except.ok r ∧
      r.subtotal = q.subtotal ∧ r.shipping = q.shipping ∧
      r.tax = q.tax ∧ r.total = q.total ∧
      q.total = round2 (calc_subtotal oitems
        + calc_shipping (calc_subtotal oitems) (some c)
        + calc_tax (calc_subtotal oitems)
            (calc_shipping (calc_subtotal oitems) (some c)) (some c)) := by
  have hone : oitems ≠ [] := mapOrderItems_ne_nil hconv h
  exact ⟨_, _, pricing_quote_ok ⟨qitems, some c⟩ oitems hconv,
    congrArg Prod.snd
      (create_order_ok db ⟨oitems, c, sub, sh, tot, st⟩ (isEmpty_false_of_ne_nil hone)),
    rfl, rfl, (round2_calc_tax _ _ _).symm, rfl, rfl⟩

theorem quote_and_order_totals_agree_witness :
    ∃ (q : QuoteResp) (r : OrderResp),
      pricing_quote ⟨[⟨some "p1", "honey", 10, 2⟩], some usCustomer⟩ = Except.ok q ∧
      (create_order (some {})
        ⟨[⟨"p1", "honey", 10, 2⟩], usCustomer, 0, 0, 0, "pending"⟩).2 = Except.ok r ∧
      r.subtotal = q.subtotal ∧ r.shipping = q.shipping ∧
      r.tax = q.tax ∧ r.total = q.total ∧
      q.total = round2 (calc_subtotal [⟨"p1", "honey", 10, 2⟩]
        + calc_shipping (calc_subtotal [⟨"p1", "honey", 10, 2⟩]) (some usCustomer)
        + calc_tax (calc_subtotal [⟨"p1", "honey", 10, 2⟩])
            (calc_shipping (calc_subtotal [⟨"p1", "honey", 10, 2⟩]) (some usCustomer))
            (some usCustomer)) :=
  quote_and_order_totals_agree [⟨some "p1", "honey", 10, 2⟩]
    [⟨"p1", "honey", 10, 2⟩] usCustomer 0 0 0 "pending" {}
    (by norm_num [mapOrderItems, quoteToOrderItem]) (by simp)

theorem mapOrderItems_error_of_invalid (items : List QuoteItem) (i : QuoteItem)
    (hmem : i ∈ items) (hbad : ¬(0 ≤ i.price ∧ 1 ≤ i.quantity)) :
    mapOrderItems items = Except.error Err.validationError := by
  induction items with
  | nil => cases hmem
  | cons a rest ih =>
    by_cases ha : 0 ≤ a.price ∧ 1 ≤ a.quantity
    · have hr : i ∈ rest := by
        rcases List.mem_cons.mp hmem with he | he
        · subst he; exact absurd ha hbad
        · exact he
      simp [mapOrderItems, quoteToOrderItem, ha, ih hr]
    · simp [mapOrderItems, quoteToOrderItem, ha]

/-- C10 counterexample: the quote endpoint, as implemented, does not
accept the single item with price -5 and quantity 0 without error — the
handler's `OrderItem` construction re-validates and raises, so no
figures are returned at all. -/
theorem pricing_quote_rejects_negative_item :
    pricing_quote ⟨[⟨none, "junk", -5, 0⟩], none⟩
      = Except.error Err.validationError := by
  norm_num [pricing_quote, mapOrderItems, quoteToOrderItem]

/-- C10 (amended): the quote item type carries no lower bounds at
request parsing, but the handler re-validates each item through the
`schemas.OrderItem` construction (price ≥ 0, quantity ≥ 1), so a request
containing an item with negative price or quantity below 1 fails with a
`ValidationError` instead of being quoted; every request whose items all
meet the bounds is quoted, and the returned subtotal, shipping, tax and
total are all non-negative. -/
theorem pricing_quote_nonneg :
    (∀ (payload : QuoteRequest) (items : List OrderItem),
      mapOrderItems payload.items = Except.ok items →
      ∃ q : QuoteResp, pricing_quote payload = Except.ok q ∧
        0 ≤ q.subtotal ∧ 0 ≤ q.shipping ∧ 0 ≤ q.tax ∧ 0 ≤ q.total) ∧
    (∀ (payload : QuoteRequest) (i : QuoteItem), i ∈ payload.items →
      i.price < 0 ∨ i.quantity < 1 →
      pricing_quote payload = Except.error Err.validationError) := by
  constructor
  · intro payload items hconv
    have hs : 0 ≤ calc_subtotal items := calc_subtotal_nonneg _
    have hsh : 0 ≤ calc_shipping (calc_subtotal items) payload.customer :=
      calc_shipping_nonneg _ _
    have ht : 0 ≤ calc_tax (calc_subtotal items)
        (calc_shipping (calc_subtotal items) payload.customer) payload.customer :=
      calc_tax_nonneg _ _ _ hs
    exact ⟨_, pricing_quote_ok payload items hconv,
      round2_nonneg hs, round2_nonneg hsh, round2_nonneg ht,
      round2_nonneg (by linarith)⟩
  · intro payload i hmem hbad
    have hb : ¬(0 ≤ i.price ∧ 1 ≤ i.quantity) := by
      rcases hbad with hb | hb
      · intro hc; linarith [hc.1]
      · intro hc; omega
    unfold pricing_quote
    rw [mapOrderItems_error_of_invalid payload.items i hmem hb]

theorem pricing_quote_nonneg_witness :
    (∃ q : QuoteResp,
      pricing_quote ⟨[⟨some "p1", "honey", 10, 2⟩], none⟩ = Except.ok q ∧
      0 ≤ q.subtotal ∧ 0 ≤ q.shipping ∧ 0 ≤ q.tax ∧ 0 ≤ q.total) ∧
    pricing_quote ⟨[⟨none, "junk", -5, 0⟩], none⟩
      = Except.error Err.validationError := by
  constructor
  · exact pricing_quote_nonneg.1 ⟨[⟨some "p1", "honey", 10, 2⟩], none⟩
      [⟨"p1", "honey", 10, 2⟩] (by norm_num [mapOrderItems, quoteToOrderItem])
  · exact pricing_quote_nonneg.2 ⟨[⟨none, "junk", -5, 0⟩], none⟩
      ⟨none, "junk", -5, 0⟩ (by simp) (Or.inl (by norm_num))

/-!
## Claim theorem: demo seeding
-/

theorem ensure_seeded_some (fail : Nat → Bool) (db : DBState) :
    ensure_seeded fail (some db) =
      if fail seedCallCatCount then (some db, ⟨0, 0⟩)
      else if db.category.length = 0 then
        if fail seedCallCatInsert then (some db, ⟨0, 0⟩)
        else
          (some (seedProductsPhase fail
            { db with category := db.category ++ seedCategories }
            ⟨seedCategories.length, 0⟩).1,
           (seedProductsPhase fail
            { db with category := db.category ++ seedCategories }
            ⟨seedCategories.length, 0⟩).2)
      else
        (some (seedProductsPhase fail db ⟨0, 0⟩).1,
         (seedProductsPhase fail db ⟨0, 0⟩).2) := rfl

theorem ensure_seeded_noFail (db : DBState) :
    ensure_seeded (fun _ => false) (some db) =
      (some { db with
          category := if db.category.length = 0
            then db.category ++ seedCategories else db.category,
          product := if db.product.length = 0
            then db.product ++ seedProducts else db.product },
       ⟨if db.category.length = 0 then 4 else 0,
        if db.product.length = 0 then 6 else 0⟩) := by
  unfold ensure_seeded seedProductsPhase
  by_cases hc : db.category.length = 0 <;> by_cases hp : db.product.length = 0 <;>
    simp [hc, hp, seedCategories, seedProducts]

/-- C8: seeding never raises and is idempotent: it returns zero counts at
once when the database is unavailable; a raising count or insert call is
swallowed, leaving state and counts untouched; without failures it
inserts the fixed 4 demo categories exactly when the category collection
counts zero and the fixed 6 demo products exactly when the product
collection counts zero, reporting the inserted counts; and a second
sequential no-failure invocation inserts nothing and reports zero
counts. -/
theorem ensure_seeded_spec :
    (∀ fail : Nat → Bool, ensure_seeded fail none = (none, ⟨0, 0⟩)) ∧
    (∀ (fail : Nat → Bool) (db : DBState), fail seedCallCatCount = true →
      ensure_seeded fail (some db) = (some db, ⟨0, 0⟩)) ∧
    (∀ (fail : Nat → Bool) (db : DBState), fail seedCallCatCount = false →
      fail seedCallCatInsert = true → db.category.length = 0 →
      ensure_seeded fail (some db) = (some db, ⟨0, 0⟩)) ∧
    (∀ db : DBState, ensure_seeded (fun _ => false) (some db) =
      (some { db with
          category := if db.category.length = 0
            then db.category ++ seedCategories else db.category,
          product := if db.product.length = 0
            then db.product ++ seedProducts else db.product },
       ⟨if db.category.length = 0 then 4 else 0,
        if db.product.length = 0 then 6 else 0⟩)) ∧
    (∀ db : DBState,
      ensure_seeded (fun _ => false) ((ensure_seeded (fun _ => false) (some db)).1)
        = ((ensure_seeded (fun _ => false) (some db)).1, ⟨0, 0⟩)) := by
  refine ⟨fun fail => rfl, ?_, ?_, ensure_seeded_noFail, ?_⟩
  · intro fail db hf
    rw [ensure_seeded_some, hf]
    rfl
  · intro fail db h0 h1 hc
    rw [ensure_seeded_some, h0, hc, h1]
    rfl
  · intro db
    rw [ensure_seeded_noFail db]
    have hc : ¬(if db.category.length = 0
        then db.category ++ seedCategories else db.category).length = 0 := by
      by_cases h : db.category.length = 0 <;> simp [h, seedCategories]
    have hp : ¬(if db.product.length = 0
        then db.product ++ seedProducts else db.product).length = 0 := by
      by_cases h : db.product.length = 0 <;> simp [h, seedProducts]
    rw [show ((some ({ db with
          category := if db.category.length = 0
            then db.category ++ seedCategories else db.category,
          product := if db.product.length = 0
            then db.product ++ seedProducts else db.product } : DBState),
        (⟨if db.category.length = 0 then 4 else 0,
          if db.product.length = 0 then 6 else 0⟩ : SeedCounts)).1)
      = some { db with
          category := if db.category.length = 0
            then db.category ++ seedCategories else db.category,
          product := if db.product.length = 0
            then db.product ++ seedProducts else db.product } from rfl]
    rw [ensure_seeded_noFail]
    simp [hc, hp]

theorem ensure_seeded_spec_witness :
    ensure_seeded (fun _ => true) (some {}) = (some {}, ⟨0, 0⟩) ∧
    (ensure_seeded (fun _ => false) (some {})).2 = ⟨4, 6⟩ :=
  ⟨ensure_seeded_spec.2.1 (fun _ => true) {} rfl,
   by rw [ensure_seeded_spec.2.2.2.1 {}]; rfl⟩

end HoneyShop
